import Mathlib

/-!
Shallow embedding of the smartnote-backend chat/summarization pipeline
(`apps/notes/services/gemini_service.py`, `apps/notes/services/chat_service.py`,
`apps/notes/models.py`, `apps/notes/views.py`) and proofs about it.

Python strings are modelled as `List Char`; `timezone.now()` is modelled by a
logical clock ticking once per call; the external Gemini provider is modelled
as an oracle indexed by the number of provider calls made so far.
-/

/-- Python strings, modelled as lists of characters. -/
abbrev Str := List Char

deriving instance DecidableEq for Except

/-- Python `str.strip()`: remove leading and trailing whitespace. -/
def pyStrip (s : Str) : Str :=
  ((s.dropWhile Char.isWhitespace).reverse.dropWhile Char.isWhitespace).reverse

/-- Helper for `pyWords`: accumulates the current word (reversed) while scanning. -/
def wordsAux : Str → Str → List Str
  | [], acc => if acc = [] then [] else [acc.reverse]
  | c :: cs, acc =>
    if c.isWhitespace then
      if acc = [] then wordsAux cs [] else acc.reverse :: wordsAux cs []
    else wordsAux cs (c :: acc)

/-- Python `str.split()` with no argument: split on whitespace runs, dropping
empty pieces. -/
def pyWords (s : Str) : List Str := wordsAux s []

/-- Python `" ".join(words)`. -/
def joinSpace (ws : List Str) : Str := List.intercalate (" ".toList) ws

/-- `core/exceptions.py` `AIServiceException` (the spec calls it
`AIServiceUnavailable`): a message plus optional detail string. -/
structure AIError where
  message : Str
  details : Option Str
deriving DecidableEq

/-- The external Gemini provider, modelled as an oracle: given the index of the
call (how many provider calls were made before) and the prompt, it either
returns the response text or fails with an error string. -/
abbrev Provider := Nat → Str → Except Str Str

/-- Configuration of `GeminiSummarizer.__init__` (`gemini_service.py` lines
19-31): API key, model name, max retries, timeout. -/
structure GeminiConfig where
  api_key : Option Str
  model_name : Str
  max_retries : Nat
  timeout : Nat
deriving DecidableEq

/-- `GeminiSummarizer._call_gemini_api` (`gemini_service.py` lines 105-127):
makes the provider call; a falsy (empty) response text raises
`AIServiceException("Empty response from Gemini API")`, otherwise the stripped
text is returned.  Any provider exception propagates (the `except` re-raises). -/
def call_gemini_api (ai : Provider) (idx : Nat) (prompt : Str) : Except Str Str :=
  match ai idx prompt with
  | .error e => .error e
  | .ok t => if t = [] then .error ("Empty response from Gemini API".toList) else .ok (pyStrip t)

/-- `GeminiSummarizer._build_prompt` (`gemini_service.py` lines 92-103). -/
def build_prompt (content : Str) (max_length : Nat) : Str :=
  "Summarize the following note in approximately ".toList ++ (toString max_length).toList ++
  " words or less. \nMake it concise, clear, and capture the key points. Do not include any preamble or \nexplanation - just provide the summary.\n\nNote content:\n".toList ++
  content ++ "\n\nSummary:".toList

/-- `GeminiSummarizer._extractive_summary` (`gemini_service.py` lines 129-141):
first `max_length` words joined by spaces, with an ellipsis appended when
truncation occurred. -/
def extractive_summary (content : Str) (max_length : Nat) : Str :=
  let words := pyWords content
  let summary := joinSpace (words.take max_length)
  if max_length < words.length then summary ++ "...".toList else summary

/-- Outcome of the retry `for` loop in `generate_summary`: an attempt returned,
an attempt raised after exhausting retries, or the range was empty and control
fell through the loop. -/
inductive LoopOut where
  | success (t : Str)
  | failure (e : AIError)
  | exhausted
deriving DecidableEq

/-- The retry loop of `GeminiSummarizer.generate_summary` (`gemini_service.py`
lines 66-87), with `remaining` attempts left out of `max_retries`; the current
attempt index is `max_retries - remaining`.  Returns the outcome, the number of
attempts actually made, and the list of backoff sleeps (in seconds, in order). -/
def retry_loop (ai : Provider) (prompt : Str) (max_retries : Nat) :
    Nat → LoopOut × Nat × List Nat
  | 0 => (.exhausted, 0, [])
  | r + 1 =>
    let attempt := max_retries - (r + 1)
    match call_gemini_api ai attempt prompt with
    | .ok t => (.success t, 1, [])
    | .error e =>
      if r = 0 then
        (.failure ⟨"Failed to generate summary after retries".toList, some e⟩, 1, [])
      else
        let out := retry_loop ai prompt max_retries r
        (out.1, out.2.1 + 1, 2 ^ attempt :: out.2.2)

/-- `GeminiSummarizer.generate_summary` (`gemini_service.py` lines 33-90):
missing key and empty content raise; content of at most 20 words is returned
truncated to `max_length * 5` characters; otherwise the retry loop runs, and
only an empty `range` (max_retries = 0) falls through to the extractive
fallback.  Also returns the number of attempts made and the backoff sleeps. -/
def generate_summary (cfg : GeminiConfig) (ai : Provider) (content : Str)
    (max_length : Nat) : Except AIError Str × Nat × List Nat :=
  match cfg.api_key with
  | none =>
    (.error ⟨"Gemini API key not configured".toList,
             some ("Please set GOOGLE_API_KEY in environment variables".toList)⟩, 0, [])
  | some _ =>
    if pyStrip content = [] then
      (.error ⟨"Cannot summarize empty content".toList,
               some ("Content must not be empty".toList)⟩, 0, [])
    else if (pyWords content).length ≤ 20 then
      (.ok (content.take (max_length * 5)), 0, [])
    else
      let prompt := build_prompt content max_length
      match retry_loop ai prompt cfg.max_retries cfg.max_retries with
      | (.success t, n, sl) => (.ok t, n, sl)
      | (.failure e, n, sl) => (.error e, n, sl)
      | (.exhausted, n, sl) => (.ok (extractive_summary content max_length), n, sl)

/-- If every character of `s` is whitespace then `wordsAux` yields no words. -/
theorem wordsAux_all_ws (s : Str) (h : ∀ c ∈ s, c.isWhitespace) :
    wordsAux s [] = [] := by
  induction s with
  | nil => simp [wordsAux]
  | cons c cs ih =>
    have hc : c.isWhitespace := h c (by simp)
    simp [wordsAux, hc]
    exact ih (fun x hx => h x (by simp [hx]))

/-- If stripping leaves nothing, the string is all whitespace. -/
theorem pyStrip_eq_nil_all_ws (s : Str) (h : pyStrip s = []) :
    ∀ c ∈ s, c.isWhitespace := by
  unfold pyStrip at h
  rw [List.reverse_eq_nil_iff, List.dropWhile_eq_nil_iff] at h
  intro c hc
  rcases List.mem_append.mp
      ((List.takeWhile_append_dropWhile (p := Char.isWhitespace) (l := s)) ▸ hc) with h1 | h2
  · exact List.mem_takeWhile_imp h1
  · exact h c (List.mem_reverse.mpr h2)

theorem pyWords_nonempty_strip (s : Str) (h : pyWords s ≠ []) : pyStrip s ≠ [] := by
  intro hs
  exact h (wordsAux_all_ws s (pyStrip_eq_nil_all_ws s hs))

/-- A failing provider call makes `_call_gemini_api` fail with the same error. -/
theorem call_gemini_api_error (ai : Provider) (idx : Nat) (prompt e : Str)
    (h : ai idx prompt = .error e) : call_gemini_api ai idx prompt = .error e := by
  unfold call_gemini_api
  rw [h]

/-- A successful, non-empty provider call makes `_call_gemini_api` return the
stripped text. -/
theorem call_gemini_api_ok (ai : Provider) (idx : Nat) (prompt t : Str)
    (h : ai idx prompt = .ok t) (ht : t ≠ []) :
    call_gemini_api ai idx prompt = .ok (pyStrip t) := by
  unfold call_gemini_api
  rw [h]
  exact if_neg ht

/-- Closed form of the retry loop when every provider call fails: all
`r` remaining attempts are made, the sleeps are the successive powers of two,
and the final error wraps the last underlying provider error. -/
theorem retry_loop_all_fail (ai : Provider) (f : Nat → Str) (prompt : Str)
    (max_retries : Nat) (hai : ∀ n p, ai n p = .error (f n)) :
    ∀ r, 1 ≤ r → r ≤ max_retries →
    retry_loop ai prompt max_retries r =
      (.failure ⟨"Failed to generate summary after retries".toList,
                 some (f (max_retries - 1))⟩, r,
       (List.range (r - 1)).map (fun i => 2 ^ (max_retries - r + i))) := by
  intro r
  induction r with
  | zero => intro h1 _; omega
  | succ r' ih =>
    intro _ hle
    simp only [retry_loop, call_gemini_api_error ai _ prompt _ (hai _ prompt)]
    by_cases hr : r' = 0
    · subst hr
      simp
    · have h3 : (2 : Nat) ^ (max_retries - (r' + 1)) ::
          (List.range (r' - 1)).map (fun i => 2 ^ (max_retries - r' + i)) =
          (List.range (r' + 1 - 1)).map (fun i => 2 ^ (max_retries - (r' + 1) + i)) := by
        have hr' : r' + 1 - 1 = (r' - 1) + 1 := by omega
        rw [hr', List.range_succ_eq_map, List.map_cons, List.map_map]
        refine congrArg₂ _ (by simp) ?_
        refine List.map_congr_left ?_
        intro i hi
        simp only [Function.comp]
        refine congrArg (fun n => (2 : Nat) ^ n) ?_
        omega
      simp only [if_neg hr, ih (by omega) (by omega), Prod.mk.injEq]
      exact ⟨trivial, trivial, h3⟩

/-- C4: with `max_retries = 3` and a provider that fails on every attempt,
`generate_summary` on content of more than 20 words (API key configured) makes
exactly 3 attempts, sleeps 1 second then 2 seconds between them, and raises
`AIServiceException` carrying the last underlying error as detail; it never
returns an extractive-summary substitute from this path. -/
theorem generate_summary_retry_exhaustion (key mname : Str) (tmo : Nat)
    (ai : Provider) (f : Nat → Str) (content : Str)
    (hai : ∀ n p, ai n p = .error (f n))
    (hwords : 20 < (pyWords content).length) :
    generate_summary ⟨some key, mname, 3, tmo⟩ ai content 150 =
      (.error ⟨"Failed to generate summary after retries".toList, some (f 2)⟩,
       3, [1, 2]) := by
  have hne : pyStrip content ≠ [] := by
    refine pyWords_nonempty_strip content ?_
    intro h
    rw [h] at hwords
    simp at hwords
  unfold generate_summary
  dsimp only
  rw [if_neg hne, if_neg (by omega)]
  rw [retry_loop_all_fail ai f _ 3 hai 3 (by omega) (by omega)]
  simp [List.range_succ]

def c4content : Str :=
  "a a a a a a a a a a a a a a a a a a a a a".toList

def c4ai : Provider := fun _ _ => .error ("provider down".toList)

/-- Witness for C4 at a concrete 21-word content and an always-failing provider. -/
theorem generate_summary_retry_exhaustion_witness :
    generate_summary ⟨some ("k".toList), "gemini-1.5-flash".toList, 3, 30⟩
        c4ai c4content 150 =
      (.error ⟨"Failed to generate summary after retries".toList,
               some ("provider down".toList)⟩, 3, [1, 2]) :=
  generate_summary_retry_exhaustion ("k".toList) ("gemini-1.5-flash".toList) 30
    c4ai (fun _ => "provider down".toList) c4content (fun _ _ => rfl) (by decide)

/-- `apps/notes/models.py` `ChatMessage` (lines 116-160): role, content,
optional per-message summary, token estimate, creation timestamp (logical
clock value of the `auto_now_add` `timezone.now()` call). -/
structure ChatMessage where
  role : Str
  content : Str
  summary : Option Str
  tokens_used : Nat
  created_at : Nat
deriving DecidableEq

/-- `ChatMessage.estimate_tokens` (`models.py` lines 157-160):
`len(content) // 4`. -/
def ChatMessage.estimate_tokens (m : ChatMessage) : ChatMessage :=
  { m with tokens_used := m.content.length / 4 }

/-- `apps/notes/models.py` `Chat` (lines 60-113): title, full summary,
condensed context summary, message counter and last-message timestamp. -/
structure Chat where
  title : Str
  summary : Option Str
  context_summary : Option Str
  message_count : Int
  last_message_at : Option Nat
deriving DecidableEq

/-- `Chat.update_summary` (`models.py` lines 97-101). -/
def Chat.update_summary (c : Chat) (new_summary : Str) : Chat :=
  { c with summary := some new_summary }

/-- `Chat.update_context` (`models.py` lines 103-107). -/
def Chat.update_context (c : Chat) (context : Str) : Chat :=
  { c with context_summary := some context }

/-- `Chat.increment_message_count` (`models.py` lines 109-113): bump the
counter and set `last_message_at` to a fresh `timezone.now()` value. -/
def Chat.increment_message_count (c : Chat) (now : Nat) : Chat :=
  { c with message_count := c.message_count + 1, last_message_at := some now }

/-- The persistent state of one chat: the chat row, its message rows in
insertion order, a logical clock ticking once per `timezone.now()` call, and
the number of provider calls made so far. -/
structure ChatState where
  chat : Chat
  messages : List ChatMessage
  clock : Nat
  aiCalls : Nat
deriving DecidableEq

/-- Insert a message into a list ascending by `created_at` (stable). -/
def insertByCreated (m : ChatMessage) : List ChatMessage → List ChatMessage
  | [] => [m]
  | x :: xs =>
    if m.created_at ≤ x.created_at then m :: x :: xs else x :: insertByCreated m xs

/-- The ORM `order_by('created_at')` (also the `Meta.ordering` of
`ChatMessage`): ascending stable sort by creation time. -/
def orderByCreatedAt : List ChatMessage → List ChatMessage
  | [] => []
  | m :: ms => insertByCreated m (orderByCreatedAt ms)

/-- One entry of the AI context (`{'role': ..., 'content': ...}` dict). -/
structure CtxEntry where
  role : Str
  content : Str
deriving DecidableEq

/-- `self.ai_service._call_gemini_api(prompt)` as used by `ChatService`:
the provider-call counter lives in the state. -/
def call_api_s (ai : Provider) (s : ChatState) (prompt : Str) :
    Except Str Str × ChatState :=
  (call_gemini_api ai s.aiCalls prompt, { s with aiCalls := s.aiCalls + 1 })

/-- Python `str.upper()` on a role string. -/
def roleUpper (r : Str) : Str := r.map Char.toUpper

/-- `ChatService._build_conversation_text` (`chat_service.py` lines 238-244). -/
def build_conversation_text (msgs : List ChatMessage) : Str :=
  List.intercalate ("\n\n".toList)
    (msgs.map (fun m => roleUpper m.role ++ ": ".toList ++ m.content))

/-- The full-chat-summary prompt of `ChatService.update_chat_summary`
(`chat_service.py` lines 144-151). -/
def chat_summary_prompt (conversation : Str) : Str :=
  "Summarize this entire conversation between a user and an AI assistant.\nCapture the key topics discussed, important information shared, and the overall context.\nKeep it concise but informative (around 200-300 words).\n\nConversation:\n".toList ++
  conversation ++ "\n\nSummary:".toList

/-- The condensing prompt of `ChatService._generate_context_summary`
(`chat_service.py` lines 252-258). -/
def condense_prompt (full_summary : Str) : Str :=
  "Create a very concise context summary (max 100 words) from this conversation summary.\nFocus on key facts, topics, and user preferences that would be useful for continuing the conversation.\n\nFull Summary:\n".toList ++
  full_summary ++ "\n\nConcise Context:".toList

/-- `ChatService._generate_context_summary` (`chat_service.py` lines 246-266):
ask the AI to condense `full_summary`; on any failure fall back silently to
the first 500 characters of `full_summary`. -/
def generate_context_summary (ai : Provider) (s : ChatState)
    (msgs : List ChatMessage) (full_summary : Str) : Str × ChatState :=
  let prompt := condense_prompt full_summary
  match call_api_s ai s prompt with
  | (.ok context, s1) => (context, s1)
  | (.error _, s1) => (full_summary.take 500, s1)

/-- `ChatService.update_chat_summary` (`chat_service.py` lines 126-170):
summarize all messages, store `chat.summary`, then derive and store
`chat.context_summary`; an empty chat returns `""` untouched; a failure of the
summary API call is wrapped in `AIServiceException("Failed to generate chat
summary", ...)`. -/
def update_chat_summary (ai : Provider) (s : ChatState) :
    Except AIError (Str × ChatState) :=
  let messages := orderByCreatedAt s.messages
  if messages = [] then .ok ([], s)
  else
    let conversation := build_conversation_text messages
    let prompt := chat_summary_prompt conversation
    match call_api_s ai s prompt with
    | (.error e, _) => .error ⟨"Failed to generate chat summary".toList, some e⟩
    | (.ok summary, s1) =>
      let s2 := { s1 with chat := s1.chat.update_summary summary }
      let cs3 := generate_context_summary ai s2 messages summary
      let s4 := { cs3.2 with chat := cs3.2.chat.update_context cs3.1 }
      .ok (summary, s4)

/-- The body of `ChatService.add_message` (`chat_service.py` lines 36-73),
before the `@transaction.atomic` wrapper: create the message (`created_at`
from one `timezone.now()`), estimate tokens, increment the counter and set
`last_message_at` (a second `timezone.now()`), then auto-summarize when the
new count is a multiple of `summarize_threshold = 10`. -/
def add_message_body (ai : Provider) (s : ChatState) (role content : Str)
    (auto_summarize : Bool) : Except AIError (ChatMessage × ChatState) :=
  let message := (ChatMessage.mk role content none 0 s.clock).estimate_tokens
  let s1 : ChatState :=
    { s with messages := s.messages ++ [message], clock := s.clock + 1 }
  let chat1 := s1.chat.increment_message_count s1.clock
  let s2 : ChatState := { s1 with chat := chat1, clock := s1.clock + 1 }
  if auto_summarize ∧ chat1.message_count % 10 = 0 then
    match update_chat_summary ai s2 with
    | .error e => .error e
    | .ok (_, s3) => .ok (message, s3)
  else
    .ok (message, s2)

/-- Django `transaction.atomic`: if the body raises, the database state is
rolled back to the state at entry; otherwise the body's writes persist. -/
def transaction_atomic {α : Type}
    (body : ChatState → Except AIError (α × ChatState)) (s : ChatState) :
    Except AIError α × ChatState :=
  match body s with
  | .ok (a, s1) => (.ok a, s1)
  | .error e => (.error e, s)

/-- `ChatService.add_message` = the body under `@transaction.atomic`.
Returns the outcome and the persisted state. -/
def add_message (ai : Provider) (s : ChatState) (role content : Str)
    (auto_summarize : Bool) : Except AIError ChatMessage × ChatState :=
  transaction_atomic (fun st => add_message_body ai st role content auto_summarize) s

/-- The optional system entry of `ChatService.get_chat_context`
(`chat_service.py` lines 88-93); Python truthiness makes both `None` and the
empty string skip it. -/
def summary_entry (s : ChatState) (include_summary : Bool) : List CtxEntry :=
  match include_summary, s.chat.context_summary with
  | true, some cs =>
    if cs = [] then []
    else [⟨"system".toList, "Previous conversation summary: ".toList ++ cs⟩]
  | _, _ => []

/-- `ChatService.get_chat_context` (`chat_service.py` lines 75-104): the
optional summary entry followed by `chat.messages.order_by('created_at')[:20]`
(`max_context_messages = 20`). -/
def get_chat_context (s : ChatState) (include_summary : Bool) : List CtxEntry :=
  let recent_messages := (orderByCreatedAt s.messages).take 20
  summary_entry s include_summary ++
    recent_messages.map (fun m => ⟨m.role, m.content⟩)

/-- The context built for one AI turn (`chat_service.py` lines 213-218):
retrieved chat context plus the new user message appended explicitly. -/
def turn_context (s1 : ChatState) (user_message : Str) (use_context : Bool) :
    List CtxEntry :=
  if use_context then
    get_chat_context s1 true ++ [⟨"user".toList, user_message⟩]
  else
    [⟨"user".toList, user_message⟩]

/-- `ChatService._build_chat_prompt` (`chat_service.py` lines 268-278). -/
def build_chat_prompt (context : List CtxEntry) : Str :=
  List.intercalate ("\n".toList)
    ("You are a helpful AI assistant. Here is the conversation:\n".toList ::
     context.map (fun e => roleUpper e.role ++ ": ".toList ++ e.content ++ "\n".toList) ++
     ["\nASSISTANT:".toList])

/-- `ChatService.get_ai_response` (`chat_service.py` lines 192-236): append the
user message (no auto-summarize), build the turn context, call the AI, append
the assistant reply (with auto-summarize); any failure is re-raised as
`AIServiceException("Failed to generate AI response", ...)`.  The second
component is the state persisted in the database: each `add_message` commits
its own transaction, and `get_ai_response` itself has none, so the user
message survives a later AI failure. -/
def get_ai_response (ai : Provider) (s : ChatState) (user_message : Str)
    (use_context : Bool) : Except AIError Str × ChatState :=
  match transaction_atomic
      (fun st => add_message_body ai st ("user".toList) user_message false) s with
  | (.error e, s0) =>
    (.error ⟨"Failed to generate AI response".toList, some e.message⟩, s0)
  | (.ok _, s1) =>
    let context := turn_context s1 user_message use_context
    let prompt := build_chat_prompt context
    match call_api_s ai s1 prompt with
    | (.error e, s2) =>
      (.error ⟨"Failed to generate AI response".toList, some e⟩, s2)
    | (.ok response, s2) =>
      match transaction_atomic
          (fun st => add_message_body ai st ("assistant".toList) response true) s2 with
      | (.error e, s3) =>
        (.error ⟨"Failed to generate AI response".toList, some e.message⟩, s3)
      | (.ok _, s3) => (.ok response, s3)

/-- Iterated `add_message` with `auto_summarize=False` (N successive appends). -/
def append_all (ai : Provider) (s : ChatState) : List (Str × Str) → ChatState
  | [] => s
  | (r, c) :: rest => append_all ai (add_message ai s r c false).2 rest

/-- `apps/notes/models.py` `Note` (lines 33-57): title, content, optional
summary, tags. -/
structure Note where
  title : Str
  content : Str
  summary : Option Str
  tags : List Str
deriving DecidableEq

/-- `NoteViewSet.perform_create` (`views.py` lines 219-243): persist the note;
when `auto_summarize` is requested, try `generate_summary`; on
`AIServiceException` log a warning and continue with the summary absent.
Returns the persisted note and the log lines emitted. -/
def perform_create (cfg : GeminiConfig) (ai : Provider) (title content : Str)
    (tags : List Str) (auto_summarize : Bool) : Note × List Str :=
  let note : Note := ⟨title, content, none, tags⟩
  if auto_summarize then
    match (generate_summary cfg ai content 150).1 with
    | .ok summary =>
      ({ note with summary := some summary }, ["Summary generated for note".toList])
    | .error e =>
      (note, ["Failed to auto-summarize note: ".toList ++ e.message])
  else
    (note, [])

/-- `NoteViewSet.perform_update` (`views.py` lines 245-266): apply the
validated fields (`summary` is read-only in the serializer), then clear the
summary exactly when the stored content changed. -/
def perform_update (note : Note) (new_title : Option Str)
    (new_content : Option Str) (new_tags : Option (List Str)) : Note :=
  let old_content := note.content
  let saved : Note :=
    { note with
      title := new_title.getD note.title,
      content := new_content.getD note.content }
  let saved2 : Note :=
    match new_tags with
    | some ts => { saved with tags := ts }
    | none => saved
  if old_content ≠ saved2.content then { saved2 with summary := none } else saved2

/-- 21 messages with distinct contents and ascending creation times. -/
def c1Messages : List ChatMessage :=
  (List.range 21).map (fun i =>
    { role := "user".toList, content := [Char.ofNat (65 + i)], summary := none,
      tokens_used := 0, created_at := i })

/-- A chat holding the 21 messages of `c1Messages`. -/
def c1State : ChatState :=
  { chat := { title := "t".toList, summary := none, context_summary := none,
              message_count := 21, last_message_at := some 20 },
    messages := c1Messages, clock := 21, aiCalls := 0 }

/-- C1: on a chat with 21 stored messages, `get_chat_context` returns the 20
OLDEST messages (the head of the history), not the 20 most recent ones: the
window equals the first 20 messages, differs from the last 20, and the most
recent message (content `'U' = Char.ofNat 85`) is absent.  This contradicts
the claim (and the code's own comments, which say "Last N messages"). -/
theorem get_chat_context_takes_head_window :
    get_chat_context c1State true =
      (c1Messages.take 20).map (fun m => ⟨m.role, m.content⟩) ∧
    get_chat_context c1State true ≠
      (c1Messages.drop 1).map (fun m => ⟨m.role, m.content⟩) ∧
    (⟨"user".toList, [Char.ofNat 85]⟩ : CtxEntry) ∉ get_chat_context c1State true := by
  decide

/-- C7: a note update clears the stored summary exactly when the saved content
differs from the previously stored content; an update that does not touch
`content` (title-only or tags-only) never clears it. -/
theorem perform_update_summary_invalidation (note : Note) (new_title : Option Str)
    (new_content : Option Str) (new_tags : Option (List Str)) :
    ((perform_update note new_title new_content new_tags).summary =
      if note.content ≠ new_content.getD note.content then none else note.summary) ∧
    (perform_update note new_title none new_tags).summary = note.summary := by
  constructor
  · unfold perform_update
    cases new_tags <;>
      by_cases h : note.content ≠ new_content.getD note.content <;> simp [h]
  · unfold perform_update
    cases new_tags <;> simp

/-- C9: `_generate_context_summary` returns the AI-condensed blob on success
and silently falls back to the first 500 characters of `full_summary` on any
AI failure (provider error or empty response); it never raises. -/
theorem generate_context_summary_fallback (ai : Provider) (s : ChatState)
    (msgs : List ChatMessage) (full_summary : Str) :
    (∀ t, ai s.aiCalls (condense_prompt full_summary) = .ok t → t ≠ [] →
      generate_context_summary ai s msgs full_summary =
        (pyStrip t, { s with aiCalls := s.aiCalls + 1 })) ∧
    (((∃ e, ai s.aiCalls (condense_prompt full_summary) = .error e) ∨
        ai s.aiCalls (condense_prompt full_summary) = .ok []) →
      generate_context_summary ai s msgs full_summary =
        (full_summary.take 500, { s with aiCalls := s.aiCalls + 1 })) := by
  constructor
  · intro t hok hne
    unfold generate_context_summary call_api_s
    dsimp only
    rw [call_gemini_api_ok ai _ _ t hok hne]
  · rintro (⟨e, he⟩ | hok)
    · unfold generate_context_summary call_api_s
      dsimp only
      rw [call_gemini_api_error ai _ _ e he]
    · unfold generate_context_summary call_api_s call_gemini_api
      dsimp only
      rw [hok]
      simp

def c9State : ChatState :=
  { chat := { title := "t".toList, summary := none, context_summary := none,
              message_count := 0, last_message_at := none },
    messages := [], clock := 0, aiCalls := 0 }

/-- Witness for C9: with a failing provider the result is the 500-character
truncation of the full summary. -/
theorem generate_context_summary_fallback_witness :
    generate_context_summary c4ai c9State [] ("long summary".toList) =
      (("long summary".toList).take 500,
       { c9State with aiCalls := c9State.aiCalls + 1 }) :=
  (generate_context_summary_fallback c4ai c9State [] ("long summary".toList)).2
    (Or.inl ⟨"provider down".toList, rfl⟩)

/-- `update_chat_summary` writes only the summary fields: the message rows,
`message_count` and `last_message_at` are untouched on success. -/
theorem update_chat_summary_preserves (ai : Provider) (s : ChatState)
    (t : Str) (s' : ChatState) (h : update_chat_summary ai s = .ok (t, s')) :
    s'.messages = s.messages ∧ s'.chat.message_count = s.chat.message_count ∧
      s'.chat.last_message_at = s.chat.last_message_at := by
  unfold update_chat_summary call_api_s at h
  by_cases hm : orderByCreatedAt s.messages = []
  · rw [if_pos hm] at h
    cases h
    exact ⟨rfl, rfl, rfl⟩
  · rw [if_neg hm] at h
    dsimp only at h
    cases hc : call_gemini_api ai s.aiCalls
        (chat_summary_prompt (build_conversation_text (orderByCreatedAt s.messages))) with
    | error e =>
      rw [hc] at h
      cases h
    | ok summary =>
      rw [hc] at h
      dsimp only at h
      unfold generate_context_summary call_api_s at h
      dsimp only at h
      cases hc2 : call_gemini_api ai (s.aiCalls + 1) (condense_prompt summary) with
      | error e2 =>
        rw [hc2] at h
        cases h
        exact ⟨rfl, rfl, rfl⟩
      | ok ctx =>
        rw [hc2] at h
        cases h
        exact ⟨rfl, rfl, rfl⟩

/-- On success, the body of `add_message` appends exactly the new message and
updates the counters. -/
theorem add_message_body_ok (ai : Provider) (s : ChatState) (role content : Str)
    (auto : Bool) (m : ChatMessage) (s' : ChatState)
    (h : add_message_body ai s role content auto = .ok (m, s')) :
    m = (ChatMessage.mk role content none 0 s.clock).estimate_tokens ∧
    s'.messages = s.messages ++ [m] ∧
    s'.chat.message_count = s.chat.message_count + 1 ∧
    s'.chat.last_message_at = some (s.clock + 1) := by
  unfold add_message_body at h
  dsimp only at h
  split at h
  · cases hu : update_chat_summary ai
        { chat := (({ s with
            messages := s.messages ++ [(ChatMessage.mk role content none 0 s.clock).estimate_tokens],
            clock := s.clock + 1 } : ChatState).chat.increment_message_count
              ({ s with
                  messages := s.messages ++ [(ChatMessage.mk role content none 0 s.clock).estimate_tokens],
                  clock := s.clock + 1 } : ChatState).clock),
          messages := s.messages ++ [(ChatMessage.mk role content none 0 s.clock).estimate_tokens],
          clock := s.clock + 1 + 1, aiCalls := s.aiCalls } with
    | error e =>
      rw [hu] at h
      cases h
    | ok ts3 =>
      rw [hu] at h
      cases h
      obtain ⟨h1, h2, h3⟩ := update_chat_summary_preserves ai _ ts3.1 ts3.2 (by
        rw [hu])
      refine ⟨rfl, ?_, ?_, ?_⟩
      · rw [h1]
      · rw [h2]
        rfl
      · rw [h3]
        rfl
  · cases h
    exact ⟨rfl, rfl, rfl, rfl⟩

/-- C6: `add_message` is atomic: either it succeeds and the message insert,
the `message_count` increment and the `last_message_at` update all persist
together, or it fails and the persisted state is exactly the input state
(message set and counters unchanged), including when the in-append
summarization fails. -/
theorem add_message_atomic (ai : Provider) (s : ChatState) (role content : Str)
    (auto : Bool) :
    (∃ m s', add_message ai s role content auto = (.ok m, s') ∧
      m = (ChatMessage.mk role content none 0 s.clock).estimate_tokens ∧
      s'.messages = s.messages ++ [m] ∧
      s'.chat.message_count = s.chat.message_count + 1 ∧
      s'.chat.last_message_at = some (s.clock + 1)) ∨
    (∃ e, add_message ai s role content auto = (.error e, s)) := by
  cases hb : add_message_body ai s role content auto with
  | error e =>
    right
    refine ⟨e, ?_⟩
    unfold add_message transaction_atomic
    dsimp only
    rw [hb]
  | ok ms =>
    left
    obtain ⟨m, s'⟩ := ms
    obtain ⟨h1, h2, h3, h4⟩ := add_message_body_ok ai s role content auto m s' hb
    refine ⟨m, s', ?_, h1, h2, h3, h4⟩
    unfold add_message transaction_atomic
    dsimp only
    rw [hb]

/-- With `auto_summarize=False` the body of `add_message` always succeeds,
with the fully explicit resulting state. -/
theorem add_message_body_no_auto (ai : Provider) (s : ChatState)
    (role content : Str) :
    add_message_body ai s role content false =
      .ok ((ChatMessage.mk role content none 0 s.clock).estimate_tokens,
        { chat := { s.chat with
                    message_count := s.chat.message_count + 1,
                    last_message_at := some (s.clock + 1) },
          messages :=
            s.messages ++ [(ChatMessage.mk role content none 0 s.clock).estimate_tokens],
          clock := s.clock + 2, aiCalls := s.aiCalls }) := by
  unfold add_message_body
  dsimp only
  rw [if_neg (by simp)]
  rfl

/-- C8: when every provider call fails, `get_ai_response` raises the
`AIServiceException` "Failed to generate AI response" while the appended user
message — and its effect on `message_count` and `last_message_at` — remains
persisted: the user's turn is never lost when the assistant's reply fails. -/
theorem get_ai_response_failure_keeps_user_message (ai : Provider)
    (s : ChatState) (user_message : Str) (use_context : Bool)
    (hai : ∀ n p, ∃ e, ai n p = .error e) :
    ∃ err s', get_ai_response ai s user_message use_context = (.error err, s') ∧
      err.message = "Failed to generate AI response".toList ∧
      s'.messages = s.messages ++
        [(ChatMessage.mk ("user".toList) user_message none 0 s.clock).estimate_tokens] ∧
      s'.chat.message_count = s.chat.message_count + 1 ∧
      s'.chat.last_message_at = some (s.clock + 1) := by
  unfold get_ai_response transaction_atomic
  dsimp only
  rw [add_message_body_no_auto]
  dsimp only
  unfold call_api_s
  dsimp only
  obtain ⟨e, he⟩ := hai s.aiCalls
    (build_chat_prompt (turn_context
      { chat := { s.chat with
                  message_count := s.chat.message_count + 1,
                  last_message_at := some (s.clock + 1) },
        messages :=
          s.messages ++ [(ChatMessage.mk ("user".toList) user_message none 0 s.clock).estimate_tokens],
        clock := s.clock + 2, aiCalls := s.aiCalls } user_message use_context))
  rw [call_gemini_api_error ai _ _ e he]
  exact ⟨⟨"Failed to generate AI response".toList, some e⟩, _, rfl, rfl, rfl, rfl, rfl⟩

def c8State : ChatState :=
  { chat := { title := "t".toList, summary := none, context_summary := none,
              message_count := 0, last_message_at := none },
    messages := [], clock := 0, aiCalls := 0 }

/-- Witness for C8 on a fresh chat with an always-failing provider. -/
theorem get_ai_response_failure_keeps_user_message_witness :
    ∃ err s', get_ai_response c4ai c8State ("hi".toList) true = (.error err, s') ∧
      err.message = "Failed to generate AI response".toList ∧
      s'.messages = c8State.messages ++
        [(ChatMessage.mk ("user".toList) ("hi".toList) none 0 c8State.clock).estimate_tokens] ∧
      s'.chat.message_count = c8State.chat.message_count + 1 ∧
      s'.chat.last_message_at = some (c8State.clock + 1) :=
  get_ai_response_failure_keeps_user_message c4ai c8State ("hi".toList) true
    (fun _ _ => ⟨"provider down".toList, rfl⟩)

theorem insertByCreated_ne_nil (m : ChatMessage) (l : List ChatMessage) :
    insertByCreated m l ≠ [] := by
  cases l with
  | nil => simp [insertByCreated]
  | cons x xs =>
    unfold insertByCreated
    split <;> simp

theorem orderByCreatedAt_ne_nil (l : List ChatMessage) (h : l ≠ []) :
    orderByCreatedAt l ≠ [] := by
  cases l with
  | nil => exact absurd rfl h
  | cons m ms =>
    unfold orderByCreatedAt
    exact insertByCreated_ne_nil m (orderByCreatedAt ms)

def c2Fresh : ChatState :=
  { chat := { title := "t".toList, summary := none, context_summary := none,
              message_count := 0, last_message_at := none },
    messages := [], clock := 0, aiCalls := 0 }

/-- Nine messages appended to a fresh chat. -/
def c2Nine : ChatState :=
  append_all c4ai c2Fresh (List.replicate 9 ("user".toList, "m".toList))

/-- Counterexample to C2: on the 10th append to a fresh chat (auto-summarize
on) with a failing provider, the mid-turn auto-summarize failure is NOT caught
inside `add_message`: the call raises `AIServiceException` and the atomic
transaction rolls the append back — the primary operation does not succeed. -/
theorem add_message_midturn_failure_rolls_back :
    add_message c4ai c2Nine ("user".toList) ("m10".toList) true =
      (.error ⟨"Failed to generate chat summary".toList,
               some ("provider down".toList)⟩, c2Nine) := by
  decide

/-- A failing summary API call makes `update_chat_summary` raise the wrapped
`AIServiceException`. -/
theorem update_chat_summary_error (ai : Provider) (s : ChatState) (e0 : Str)
    (hm : s.messages ≠ [])
    (he : ai s.aiCalls
      (chat_summary_prompt (build_conversation_text (orderByCreatedAt s.messages))) =
        .error e0) :
    update_chat_summary ai s =
      .error ⟨"Failed to generate chat summary".toList, some e0⟩ := by
  unfold update_chat_summary call_api_s
  dsimp only
  rw [if_neg (orderByCreatedAt_ne_nil s.messages hm)]
  rw [call_gemini_api_error ai _ _ e0 he]

/-- C2 (amended): an AI failure during auto-summarize at note creation is
caught and logged and the note is created with summary absent; but an AI
failure during mid-turn auto-summarize inside `add_message` is NOT caught
there — it propagates as `AIServiceException` and the atomic transaction
rolls back the append, so that primary operation fails with state unchanged. -/
theorem auto_path_ai_failure_handling :
    (∀ (cfg : GeminiConfig) (ai : Provider) (title content : Str)
        (tags : List Str) (e : AIError) (n : Nat) (sl : List Nat),
      generate_summary cfg ai content 150 = (.error e, n, sl) →
      perform_create cfg ai title content tags true =
        (⟨title, content, none, tags⟩,
         ["Failed to auto-summarize note: ".toList ++ e.message])) ∧
    (∀ (ai : Provider) (s : ChatState) (role content : Str),
      (∀ idx p, ∃ err, ai idx p = Except.error err) →
      (s.chat.message_count + 1) % 10 = 0 →
      ∃ e, add_message ai s role content true = (Except.error e, s)) := by
  constructor
  · intro cfg ai title content tags e n sl hgen
    unfold perform_create
    dsimp only
    rw [if_pos rfl, hgen]
  · intro ai s role content hfail htrig
    obtain ⟨e0, he⟩ := hfail s.aiCalls
      (chat_summary_prompt (build_conversation_text (orderByCreatedAt
        (s.messages ++ [(ChatMessage.mk role content none 0 s.clock).estimate_tokens]))))
    refine ⟨⟨"Failed to generate chat summary".toList, some e0⟩, ?_⟩
    unfold add_message transaction_atomic add_message_body
    dsimp only
    simp only [Chat.increment_message_count]
    rw [if_pos ⟨trivial, htrig⟩]
    rw [update_chat_summary_error ai _ e0 (by simp) he]

/-- Witness for C2's amended theorem: a concrete failing provider at note
creation (21-word content) and a concrete chat whose next append count is 10. -/
theorem auto_path_ai_failure_handling_witness :
    perform_create ⟨some ("k".toList), "gemini-1.5-flash".toList, 3, 30⟩
        c4ai ("t".toList) c4content [] true =
      (⟨"t".toList, c4content, none, []⟩,
       ["Failed to auto-summarize note: Failed to generate summary after retries".toList]) ∧
    ∃ e, add_message c4ai
        ⟨⟨"t".toList, none, none, 9, none⟩, [], 0, 0⟩ ("user".toList) ("m".toList) true =
      (Except.error e, ⟨⟨"t".toList, none, none, 9, none⟩, [], 0, 0⟩) := by
  constructor
  · exact auto_path_ai_failure_handling.1
      ⟨some ("k".toList), "gemini-1.5-flash".toList, 3, 30⟩ c4ai ("t".toList)
      c4content []
      ⟨"Failed to generate summary after retries".toList, some ("provider down".toList)⟩
      3 [1, 2] (by decide)
  · exact auto_path_ai_failure_handling.2 c4ai
      ⟨⟨"t".toList, none, none, 9, none⟩, [], 0, 0⟩ ("user".toList) ("m".toList)
      (fun _ _ => ⟨"provider down".toList, rfl⟩) (by decide)

/-- When both API calls succeed with non-empty text, `update_chat_summary`
stores the stripped full summary and then the stripped condensed context. -/
theorem update_chat_summary_ok (ai : Provider) (s : ChatState) (t1 t2 : Str)
    (hm : s.messages ≠ [])
    (h1 : ai s.aiCalls
      (chat_summary_prompt (build_conversation_text (orderByCreatedAt s.messages))) =
        .ok t1)
    (hn1 : t1 ≠ [])
    (h2 : ai (s.aiCalls + 1) (condense_prompt (pyStrip t1)) = .ok t2)
    (hn2 : t2 ≠ []) :
    update_chat_summary ai s =
      .ok (pyStrip t1,
        { s with
          chat := { s.chat with
                    summary := some (pyStrip t1),
                    context_summary := some (pyStrip t2) },
          aiCalls := s.aiCalls + 2 }) := by
  unfold update_chat_summary generate_context_summary call_api_s
  dsimp only
  rw [if_neg (orderByCreatedAt_ne_nil s.messages hm)]
  rw [call_gemini_api_ok ai _ _ t1 h1 hn1]
  dsimp only
  rw [call_gemini_api_ok ai _ _ t2 h2 hn2]
  rfl

/-- C3: with auto-summarize on and a succeeding provider, appending a message
always succeeds, increments the count, and triggers full summarization
(storing `chat.summary` and `chat.context_summary`) exactly when the
message count after the append is a positive multiple of
`summarize_threshold = 10`; at off-multiples both summary fields are
unchanged. -/
theorem add_message_trigger_exactly_on_multiples (ai : Provider) (s : ChatState)
    (role content : Str)
    (h0 : 0 ≤ s.chat.message_count)
    (hai : ∀ idx p, ∃ t, ai idx p = .ok t ∧ pyStrip t ≠ []) :
    ∃ m s', add_message ai s role content true = (.ok m, s') ∧
      s'.chat.message_count = s.chat.message_count + 1 ∧
      ((∃ k : Int, 0 < k ∧ s.chat.message_count + 1 = 10 * k) →
        ∃ u v, s'.chat.summary = some (pyStrip u) ∧ pyStrip u ≠ [] ∧
               s'.chat.context_summary = some (pyStrip v) ∧ pyStrip v ≠ []) ∧
      (¬ (∃ k : Int, 0 < k ∧ s.chat.message_count + 1 = 10 * k) →
        s'.chat.summary = s.chat.summary ∧
        s'.chat.context_summary = s.chat.context_summary) := by
  have hiff : ((s.chat.message_count + 1) % 10 = 0) ↔
      (∃ k : Int, 0 < k ∧ s.chat.message_count + 1 = 10 * k) := by
    constructor
    · intro hmod
      obtain ⟨k, hk⟩ := Int.dvd_of_emod_eq_zero hmod
      exact ⟨k, by omega, hk⟩
    · rintro ⟨k, _, hk⟩
      rw [hk]
      exact Int.mul_emod_right 10 k
  by_cases hc : (s.chat.message_count + 1) % 10 = 0
  · obtain ⟨t1, h1, hn1⟩ := hai s.aiCalls
      (chat_summary_prompt (build_conversation_text (orderByCreatedAt
        (s.messages ++ [(ChatMessage.mk role content none 0 s.clock).estimate_tokens]))))
    obtain ⟨t2, h2, hn2⟩ := hai (s.aiCalls + 1) (condense_prompt (pyStrip t1))
    have hn1' : t1 ≠ [] := by
      intro ht
      rw [ht] at hn1
      exact hn1 rfl
    have hn2' : t2 ≠ [] := by
      intro ht
      rw [ht] at hn2
      exact hn2 rfl
    refine ⟨(ChatMessage.mk role content none 0 s.clock).estimate_tokens,
      { chat := { s.chat with
                  message_count := s.chat.message_count + 1,
                  last_message_at := some (s.clock + 1),
                  summary := some (pyStrip t1),
                  context_summary := some (pyStrip t2) },
        messages :=
          s.messages ++ [(ChatMessage.mk role content none 0 s.clock).estimate_tokens],
        clock := s.clock + 2, aiCalls := s.aiCalls + 2 }, ?_, ?_, ?_, ?_⟩
    · unfold add_message transaction_atomic add_message_body
      dsimp only
      simp only [Chat.increment_message_count]
      rw [if_pos ⟨trivial, hc⟩]
      rw [update_chat_summary_ok ai
        { chat := { s.chat with
                    message_count := s.chat.message_count + 1,
                    last_message_at := some (s.clock + 1) },
          messages :=
            s.messages ++ [(ChatMessage.mk role content none 0 s.clock).estimate_tokens],
          clock := s.clock + 1 + 1, aiCalls := s.aiCalls }
        t1 t2 (by simp) h1 hn1' h2 hn2']
    · rfl
    · intro _
      exact ⟨t1, t2, rfl, hn1, rfl, hn2⟩
    · intro hcon
      exact absurd (hiff.mp hc) hcon
  · refine ⟨(ChatMessage.mk role content none 0 s.clock).estimate_tokens,
      { chat := { s.chat with
                  message_count := s.chat.message_count + 1,
                  last_message_at := some (s.clock + 1) },
        messages :=
          s.messages ++ [(ChatMessage.mk role content none 0 s.clock).estimate_tokens],
        clock := s.clock + 2, aiCalls := s.aiCalls }, ?_, ?_, ?_, ?_⟩
    · unfold add_message transaction_atomic add_message_body
      dsimp only
      simp only [Chat.increment_message_count]
      rw [if_neg (by
        rintro ⟨_, hmod⟩
        exact hc hmod)]
    · rfl
    · intro hk
      exact absurd (hiff.mpr hk) hc
    · intro _
      exact ⟨rfl, rfl⟩

def c3ai : Provider := fun _ _ => .ok ("sum".toList)

/-- Witness for C3 at a chat with nine stored messages (count 9 → 10). -/
theorem add_message_trigger_exactly_on_multiples_witness :
    ∃ m s', add_message c3ai c2Nine ("user".toList) ("m10".toList) true = (.ok m, s') ∧
      s'.chat.message_count = c2Nine.chat.message_count + 1 ∧
      ((∃ k : Int, 0 < k ∧ c2Nine.chat.message_count + 1 = 10 * k) →
        ∃ u v, s'.chat.summary = some (pyStrip u) ∧ pyStrip u ≠ [] ∧
               s'.chat.context_summary = some (pyStrip v) ∧ pyStrip v ≠ []) ∧
      (¬ (∃ k : Int, 0 < k ∧ c2Nine.chat.message_count + 1 = 10 * k) →
        s'.chat.summary = c2Nine.chat.summary ∧
        s'.chat.context_summary = c2Nine.chat.context_summary) :=
  add_message_trigger_exactly_on_multiples c3ai c2Nine ("user".toList) ("m10".toList)
    (by decide) (fun _ _ => ⟨"sum".toList, rfl, by decide⟩)

/-- Counterexample to C5: after one append to a fresh chat the message's
`created_at` is 0 but `last_message_at` is 1: `increment_message_count` takes
a fresh `timezone.now()` after the row's `auto_now_add` timestamp, so
`last_message_at` is not equal to the creation time of the (1st) message. -/
theorem last_message_at_differs_from_created_at :
    (append_all c4ai c2Fresh [("user".toList, "h".toList)]).chat.message_count = 1 ∧
    ((append_all c4ai c2Fresh [("user".toList, "h".toList)]).messages.map
      (fun m => m.created_at)) = [0] ∧
    (append_all c4ai c2Fresh [("user".toList, "h".toList)]).chat.last_message_at = some 1 ∧
    (append_all c4ai c2Fresh [("user".toList, "h".toList)]).chat.last_message_at ≠ some 0 := by
  decide

/-- `add_message` with `auto_summarize=False` always succeeds, with explicit
resulting state. -/
theorem add_message_no_auto (ai : Provider) (s : ChatState) (role content : Str) :
    add_message ai s role content false =
      (.ok ((ChatMessage.mk role content none 0 s.clock).estimate_tokens),
        { chat := { s.chat with
                    message_count := s.chat.message_count + 1,
                    last_message_at := some (s.clock + 1) },
          messages :=
            s.messages ++ [(ChatMessage.mk role content none 0 s.clock).estimate_tokens],
          clock := s.clock + 2, aiCalls := s.aiCalls }) := by
  unfold add_message transaction_atomic
  dsimp only
  rw [add_message_body_no_auto]

theorem getLast?_append_single {α : Type} (l : List α) (a : α) :
    (l ++ [a]).getLast? = some a := by
  rw [List.getLast?_concat]

/-- Invariant of iterated appends from an arbitrary state: the counter grows
by the number of appends, so does the message list, and `last_message_at` is
one clock tick after the `created_at` of the last appended message. -/
theorem append_all_invariant (ai : Provider) (pairs : List (Str × Str)) :
    ∀ s : ChatState, pairs ≠ [] →
    (append_all ai s pairs).chat.message_count =
      s.chat.message_count + pairs.length ∧
    (append_all ai s pairs).messages.length = s.messages.length + pairs.length ∧
    ∃ last, (append_all ai s pairs).messages.getLast? = some last ∧
      (append_all ai s pairs).chat.last_message_at = some (last.created_at + 1) := by
  induction pairs with
  | nil => intro s hm; exact absurd rfl hm
  | cons p rest ih =>
    intro s _
    obtain ⟨r, c⟩ := p
    have hstep : append_all ai s ((r, c) :: rest) =
        append_all ai (add_message ai s r c false).2 rest := rfl
    rw [hstep]
    cases rest with
    | nil =>
      unfold append_all
      rw [add_message_no_auto]
      dsimp only
      refine ⟨by simp, by simp,
        (ChatMessage.mk r c none 0 s.clock).estimate_tokens, ?_, rfl⟩
      exact getLast?_append_single _ _
    | cons q qs =>
      obtain ⟨ih1, ih2, last, ih3, ih4⟩ := ih
        { chat := { s.chat with
                    message_count := s.chat.message_count + 1,
                    last_message_at := some (s.clock + 1) },
          messages :=
            s.messages ++ [(ChatMessage.mk r c none 0 s.clock).estimate_tokens],
          clock := s.clock + 2, aiCalls := s.aiCalls } (by simp)
      dsimp only at ih1 ih2 ih3 ih4
      rw [add_message_no_auto]
      dsimp only
      refine ⟨?_, ?_, last, ih3, ih4⟩
      · rw [ih1]
        simp
        omega
      · rw [ih2]
        simp
        omega

/-- C5 (amended): for a fresh chat, after N successful appends
`message_count = N` and equals the number of persisted messages, and
`last_message_at` equals the timestamp taken at the counter update of the Nth
append — one clock tick AFTER the Nth message's `created_at`, not equal to it. -/
theorem append_counters_from_fresh (ai : Provider) (pairs : List (Str × Str))
    (c : Chat) (clock0 a0 : Nat) (hc : c.message_count = 0) (hm : pairs ≠ []) :
    (append_all ai ⟨c, [], clock0, a0⟩ pairs).chat.message_count = pairs.length ∧
    (append_all ai ⟨c, [], clock0, a0⟩ pairs).messages.length = pairs.length ∧
    ∃ last, (append_all ai ⟨c, [], clock0, a0⟩ pairs).messages.getLast? = some last ∧
      (append_all ai ⟨c, [], clock0, a0⟩ pairs).chat.last_message_at =
        some (last.created_at + 1) := by
  obtain ⟨h1, h2, last, h3, h4⟩ := append_all_invariant ai pairs ⟨c, [], clock0, a0⟩ hm
  refine ⟨?_, ?_, last, h3, h4⟩
  · rw [h1]
    simp [hc]
  · rw [h2]
    simp

/-- Witness for C5's amended theorem: two appends to a fresh chat. -/
theorem append_counters_from_fresh_witness :
    (append_all c4ai ⟨⟨"t".toList, none, none, 0, none⟩, [], 0, 0⟩
      [("user".toList, "a".toList), ("assistant".toList, "b".toList)]).chat.message_count = 2 ∧
    (append_all c4ai ⟨⟨"t".toList, none, none, 0, none⟩, [], 0, 0⟩
      [("user".toList, "a".toList), ("assistant".toList, "b".toList)]).messages.length = 2 ∧
    ∃ last, (append_all c4ai ⟨⟨"t".toList, none, none, 0, none⟩, [], 0, 0⟩
      [("user".toList, "a".toList), ("assistant".toList, "b".toList)]).messages.getLast? = some last ∧
      (append_all c4ai ⟨⟨"t".toList, none, none, 0, none⟩, [], 0, 0⟩
        [("user".toList, "a".toList), ("assistant".toList, "b".toList)]).chat.last_message_at =
        some (last.created_at + 1) := by
  have h := append_counters_from_fresh c4ai
    [("user".toList, "a".toList), ("assistant".toList, "b".toList)]
    ⟨"t".toList, none, none, 0, none⟩ 0 0 rfl (by decide)
  simpa using h

/-- Check that a message list is ascending by `created_at`. -/
def sortedByCreated : List ChatMessage → Bool
  | [] => true
  | [_] => true
  | a :: b :: r => decide (a.created_at ≤ b.created_at) && sortedByCreated (b :: r)

/-- Sorting fixes an already-sorted list. -/
theorem orderByCreatedAt_sorted_fix :
    ∀ l : List ChatMessage, sortedByCreated l = true → orderByCreatedAt l = l := by
  intro l
  induction l with
  | nil => intro _; rfl
  | cons m ms ih =>
    intro hs
    cases ms with
    | nil => rfl
    | cons x xs =>
      have hs' : sortedByCreated (x :: xs) = true := by
        unfold sortedByCreated at hs
        exact (Bool.and_eq_true _ _ |>.mp hs).2
      have hmx : m.created_at ≤ x.created_at := by
        unfold sortedByCreated at hs
        have := (Bool.and_eq_true _ _ |>.mp hs).1
        exact of_decide_eq_true this
      unfold orderByCreatedAt
      rw [ih hs']
      unfold insertByCreated
      rw [if_pos hmx]

/-- Appending a maximal element keeps the list sorted. -/
theorem sortedByCreated_append_max (m : ChatMessage) :
    ∀ l : List ChatMessage, sortedByCreated l = true →
      (∀ x ∈ l, x.created_at ≤ m.created_at) →
      sortedByCreated (l ++ [m]) = true := by
  intro l
  induction l with
  | nil => intro _ _; rfl
  | cons a ms ih =>
    intro hs hall
    cases ms with
    | nil =>
      have ham : a.created_at ≤ m.created_at := hall a (by simp)
      simp [sortedByCreated, ham]
    | cons b r =>
      unfold sortedByCreated at hs
      obtain ⟨hab, hs'⟩ := Bool.and_eq_true _ _ |>.mp hs
      have hrec := ih hs' (fun x hx => hall x (by simp [hx]))
      rw [List.cons_append]
      unfold sortedByCreated
      rw [List.cons_append] at hrec
      simp only [List.cons_append] at hrec ⊢
      rw [hrec]
      simp [of_decide_eq_true hab]

/-- C10: when the chat holds at most 19 stored messages (at most 20 including
the new user message), `get_ai_response` with `use_context=True` builds a turn
context containing the new user message twice: once as the final entry of the
retrieved message window and once appended explicitly after it. -/
theorem turn_context_duplicates_user_message (ai : Provider) (s : ChatState)
    (user_message : Str)
    (hsorted : sortedByCreated s.messages = true)
    (hbound : ∀ m ∈ s.messages, m.created_at < s.clock)
    (hlen : s.messages.length + 1 ≤ 20) :
    ∃ pre, turn_context (add_message ai s ("user".toList) user_message false).2
        user_message true =
      pre ++ [⟨"user".toList, user_message⟩, ⟨"user".toList, user_message⟩] := by
  have hre : ∀ (A B : List CtxEntry) (e1 e2 : CtxEntry),
      (A ++ (B ++ [e1])) ++ [e2] = (A ++ B) ++ [e1, e2] := by
    intro A B e1 e2
    simp
  have hsorted2 : sortedByCreated
      (s.messages ++ [(ChatMessage.mk ("user".toList) user_message none 0 s.clock).estimate_tokens]) = true := by
    refine sortedByCreated_append_max _ s.messages hsorted ?_
    intro x hx
    exact Nat.le_of_lt (hbound x hx)
  rw [add_message_no_auto]
  dsimp only
  unfold turn_context
  rw [if_pos rfl]
  unfold get_chat_context
  dsimp only
  rw [orderByCreatedAt_sorted_fix _ hsorted2]
  rw [List.take_of_length_le (by simp; omega)]
  rw [List.map_append]
  simp only [List.map_cons, List.map_nil, ChatMessage.estimate_tokens]
  rw [hre]
  exact ⟨_, rfl⟩

/-- Witness for C10 on a chat with one stored message. -/
theorem turn_context_duplicates_user_message_witness :
    ∃ pre, turn_context (add_message c4ai
        ⟨⟨"t".toList, none, none, 1, some 1⟩,
         [⟨"user".toList, "a".toList, none, 0, 0⟩], 2, 0⟩
        ("user".toList) ("hi".toList) false).2 ("hi".toList) true =
      pre ++ [⟨"user".toList, "hi".toList⟩, ⟨"user".toList, "hi".toList⟩] :=
  turn_context_duplicates_user_message c4ai
    ⟨⟨"t".toList, none, none, 1, some 1⟩,
     [⟨"user".toList, "a".toList, none, 0, 0⟩], 2, 0⟩
    ("hi".toList) (by decide) (by decide) (by decide)
